import Mathlib

/-!
# Shallow embedding of `src/util/model/conf.ts` (vscode-journal)

The module under verification is the `Configuration` class: a facade over the
VS Code settings store (`vscode.WorkspaceConfiguration`) plus the lazy
initializer of the per-workspace configuration directory (`getConfigPath`,
`initializeConfigDir`, `copyTask`, `checkIfAccessible`).

Modelling choices, all taken from the source:

* The settings store `this.config` is a key → value map where every key may be
  absent (`config.get` returns `undefined` for an unset key).  We model the
  thirteen keys the class reads as a record of `Option` fields.
* JavaScript runtime errors matter: the accessors dereference the raw result of
  `config.get` (`locale.length`, `ext.startsWith`, `base.length`), so an unset
  key makes them throw a `TypeError`.  Accessors that can throw return
  `Except String α`, where `.error` is a thrown exception.
* `Path.resolve(a, b)` is modelled for already-normalised inputs (no `.`/`..`
  segments, which never occur in this module's arguments): the result is `b`
  when `b` is absolute, else `a ++ "/" ++ b`.  `Path.resolve(x)` with a single
  argument resolves against the process working directory, which we carry in an
  environment record together with `os.homedir()` and the extension's
  installation path.
* The filesystem is a state: which paths `fs.access` accepts and at which paths
  `fs.mkdir` succeeds.  A successful `mkdir p` makes `p` accessible.
* `copyTask` pipes a read stream into a write stream and resolves its deferred
  immediately inside `Q.fcall`, before the copy has completed and with no error
  handler attached to either stream.  Its promise outcome therefore does not
  depend on the filesystem; the only effect observable during the run is that a
  copy was *initiated*.  Runs record the list of initiated stream copies.
-/

/-- The thirteen settings keys read by `Configuration`, each possibly unset
(`config.get` returns `undefined`).  Field names replace the `-` of the
setting keys `tpl-memo`, `tpl-files`, `tpl-files-after`, `tpl-task`,
`tpl-task-after`, `tpl-todo`, `tpl-todo-after` by camel case. -/
structure Settings where
  locale : Option String
  openInNewEditorGroup : Option Bool
  dev : Option Bool
  base : Option String
  extDir : Option String
  ext : Option String
  tplMemo : Option String
  tplFiles : Option String
  tplFilesAfter : Option String
  tplTask : Option String
  tplTaskAfter : Option String
  tplTodo : Option String
  tplTodoAfter : Option String
deriving DecidableEq

/-- Ambient process environment: `os.homedir()`, the working directory that
`Path.resolve` uses for relative paths, and `extensionPath` of the
`pajoma.vscode-journal` extension (assumed installed). -/
structure Env where
  homedir : String
  cwd : String
  extensionPath : String
deriving DecidableEq

/-- JavaScript `s.startsWith(pre)`, computed on the character list.  All
strings this module feeds to `startsWith` are ASCII, where UTF-16 units and
characters coincide. -/
def jsStartsWith (s pre : String) : Bool :=
  pre.data.isPrefixOf s.data

/-- JavaScript `s.substring(1, s.length)`: everything after the first
character. -/
def jsTail (s : String) : String :=
  ⟨s.data.drop 1⟩

/-- Node's `Path.resolve(a, b)` restricted to normalised inputs: keep `b` when
it is absolute, otherwise append it to `a`. -/
def pathResolve (a b : String) : String :=
  if jsStartsWith b "/" then b else a ++ "/" ++ b

/-- Node's `Path.join(a, b)` for a simple relative second segment. -/
def pathJoin (a b : String) : String :=
  a ++ "/" ++ b

/-- Decidable equality for promise/exception results, so concrete runs can be
checked by `decide`. -/
instance {ε α : Type} [DecidableEq ε] [DecidableEq α] :
    DecidableEq (Except ε α) := fun x y =>
  match x, y with
  | .ok a, .ok b =>
    if h : a = b then .isTrue (congrArg Except.ok h)
    else .isFalse (fun hh => h (Except.ok.inj hh))
  | .error e, .error f =>
    if h : e = f then .isTrue (congrArg Except.error h)
    else .isFalse (fun hh => h (Except.error.inj hh))
  | .ok _, .error _ => .isFalse (fun hh => Except.noConfusion hh)
  | .error _, .ok _ => .isFalse (fun hh => Except.noConfusion hh)

/-- Message of the `TypeError` thrown when a property of `undefined` is read. -/
def undefinedReadError (prop : String) : String :=
  "TypeError: Cannot read properties of undefined (reading " ++ prop ++ ")"

/-- `getLocale`: `config.get<string>('locale')`, then
`(locale.length > 0) ? locale : 'en-US'`.  When the key is unset the code
dereferences `undefined.length` and throws. -/
def getLocale (s : Settings) : Except String String :=
  match s.locale with
  | none => .error (undefinedReadError "length")
  | some locale => .ok (if locale.length > 0 then locale else "en-US")

/-- `isOpenInNewEditorGroup`: returns `config.get<boolean>(...)` unchanged,
`undefined` included. -/
def isOpenInNewEditorGroup (s : Settings) : Option Bool :=
  s.openInNewEditorGroup

/-- `isDevEnabled`: `(dev) ? dev : false`; `undefined` and `false` are both
falsy, so only a stored `true` yields `true`.  Never throws. -/
def isDevEnabled (s : Settings) : Bool :=
  match s.dev with
  | none => false
  | some dev => if dev then dev else false

/-- `getBasePath`: `config.get<string>('base')`; when non-empty,
`Path.resolve(base)` (against the working directory), else
`Path.resolve(os.homedir(), "Journal")`.  When the key is unset the code
dereferences `undefined.length` and throws. -/
def getBasePath (env : Env) (s : Settings) : Except String String :=
  match s.base with
  | none => .error (undefinedReadError "length")
  | some base =>
    if base.length > 0 then .ok (pathResolve env.cwd base)
    else .ok (pathResolve env.homedir "Journal")

/-- `getFileExtension`: `config.get<string>('ext')`; one leading dot is
stripped (`ext.substring(1, ext.length)` under `ext.startsWith(".")`), then an
empty result falls back to `'md'`.  When the key is unset the code calls
`undefined.startsWith` and throws. -/
def getFileExtension (s : Settings) : Except String String :=
  match s.ext with
  | none => .error (undefinedReadError "startsWith")
  | some e =>
    let e1 := if jsStartsWith e "." then jsTail e else e
    .ok (if e1.length > 0 then e1 else "md")

/-- `TemplateInfo` as in the source: `constructor(public Template: string,
public After: string)`.  The constructor is applied to raw `config.get`
results, so either field may be `undefined`. -/
structure TemplateInfo where
  Template : Option String
  After : Option String
deriving DecidableEq

/-- Runtime value produced by a template accessor: `getMemoTemplate` is
declared `(): string` and returns a bare settings value, the other three wrap
theirs in a `TemplateInfo`. -/
inductive AccessorResult where
  | str (s : Option String)
  | tpl (t : TemplateInfo)
deriving DecidableEq

/-- Discriminator: does the accessor result carry a `TemplateInfo`? -/
def AccessorResult.isTemplateInfo : AccessorResult → Bool
  | .str _ => false
  | .tpl _ => true

/-- `getMemoTemplate`: the body is the stray expression statement `this.getIn`
(a property access on `this` that evaluates to `undefined` with no effect),
followed by `return this.config.get<string>('tpl-memo')`.  The declared return
type is `string`, not `TemplateInfo`. -/
def getMemoTemplate (s : Settings) : AccessorResult :=
  .str s.tplMemo

/-- `getNotesTemplate`: `new TemplateInfo(get('tpl-files'),
get('tpl-files-after'))`. -/
def getNotesTemplate (s : Settings) : AccessorResult :=
  .tpl ⟨s.tplFiles, s.tplFilesAfter⟩

/-- `getTaskTemplate`: `new TemplateInfo(get('tpl-task'),
get('tpl-task-after'))`. -/
def getTaskTemplate (s : Settings) : AccessorResult :=
  .tpl ⟨s.tplTask, s.tplTaskAfter⟩

/-- `getTodoTemplate`: `new TemplateInfo(get('tpl-todo'),
get('tpl-todo-after'))`. -/
def getTodoTemplate (s : Settings) : AccessorResult :=
  .tpl ⟨s.tplTodo, s.tplTodoAfter⟩

/-- Filesystem state: which paths `fs.access` accepts (existence plus
permission) and at which paths `fs.mkdir` would succeed. -/
structure FileSystem where
  accessible : String → Bool
  mkdirOk : String → Bool

/-- Effect of a successful `fs.mkdir p`: `p` becomes accessible. -/
def FileSystem.afterMkdir (fs : FileSystem) (p : String) : FileSystem :=
  { fs with accessible := fun q => q == p || fs.accessible q }

/-- `checkIfAccessible`: wraps `fs.access(path, cb)` in a promise, resolving
when `err == null` and rejecting with the error message otherwise. -/
def checkIfAccessible (fs : FileSystem) (path : String) : Except String Unit :=
  if fs.accessible path then .ok ()
  else .error ("ENOENT: no such file or directory, access " ++ path)

/-- `Q.nfcall(fs.mkdir, configDir)`: resolves and creates the directory when
`mkdir` succeeds, rejects with the node error otherwise. -/
def mkdirCall (fs : FileSystem) (path : String) : Except String FileSystem :=
  if fs.mkdirOk path then .ok (fs.afterMkdir path)
  else .error ("EACCES: permission denied, mkdir " ++ path)

/-- A stream copy initiated by `copyTask`: `Path.join(source, file)` piped into
`Path.join(target, file)`. -/
structure CopyInit where
  source : String
  target : String
  file : String
deriving DecidableEq

/-- `copyTask(source, target, file)`: inside `Q.fcall` it initiates
`createReadStream(join(source,file)).pipe(createWriteStream(join(target,file)))`
and immediately calls `deferred.resolve(null)`.  Neither stream gets an error
handler and the resolution does not await the pipe, so the promise outcome is
`.ok ()` for every filesystem state; the initiated copy is the run's only
observable effect. -/
def copyTask (source target file : String) : Except String Unit × CopyInit :=
  (.ok (), ⟨source, target, file⟩)

/-- `Q.all` on unit promises: resolves when all resolve, rejects with the first
rejection otherwise. -/
def qAll : List (Except String Unit) → Except String Unit
  | [] => .ok ()
  | x :: xs => match x with
    | .ok _ => qAll xs
    | .error e => .error e

/-- `initializeConfigDir(configDir)`: resolves the `pajoma.vscode-journal`
extension (assumed installed, its path in `env`), takes
`source = Path.resolve(ext.extensionPath, "res")`, runs `Q.all` over the four
`copyTask`s, resolving on success and rejecting with `"Error copying: " ++ err`
otherwise.  Returns the promise outcome together with the copies initiated. -/
def initializeConfigDir (env : Env) (configDir : String) :
    Except String Unit × List CopyInit :=
  let source := pathResolve env.extensionPath "res"
  let t1 := copyTask source configDir "settings.json"
  let t2 := copyTask source configDir "journal.page-template.md"
  let t3 := copyTask source configDir "journal.note-template.md"
  let t4 := copyTask source configDir "journal.inline-templates.json"
  match qAll [t1.1, t2.1, t3.1, t4.1] with
  | .ok _ => (.ok (), [t1.2, t2.2, t3.2, t4.2])
  | .error e => (.error ("Error copying: " ++ e), [t1.2, t2.2, t3.2, t4.2])

/-- Lines 74–81 of `getConfigPath`: read `extDir`; when set and non-empty,
`Path.resolve` it, otherwise `Path.resolve(this.getBasePath(), ".vscode")`.
An `.error` is a synchronous `TypeError` thrown by `getBasePath`. -/
def resolveConfigDir (env : Env) (s : Settings) : Except String String :=
  match s.extDir with
  | some d =>
    if d.length > 0 then .ok (pathResolve env.cwd d)
    else (getBasePath env s).map (fun bp => pathResolve bp ".vscode")
  | none => (getBasePath env s).map (fun bp => pathResolve bp ".vscode")

/-- How a `getConfigPath` request ends: a synchronous exception escaping the
method, a rejection of the returned promise, or resolution with the directory
path. -/
inductive ConfigOutcome where
  | thrown (e : String)
  | rejected (e : String)
  | resolvedPath (p : String)
deriving DecidableEq

/-- Observable trace of one `getConfigPath` request: its outcome, the
filesystem at resolution time (reflecting a successful `mkdir`; initiated
stream copies have not completed by then), and the copies initiated. -/
structure ConfigRun where
  outcome : ConfigOutcome
  fs : FileSystem
  copies : List CopyInit

/-- `getConfigPath`, following the `Q` chain exactly:

```
checkIfAccessible(configDir)
  .catch(err => Q.nfcall(fs.mkdir, configDir))
  .then(() => checkIfAccessible(join(configDir, "journal.page-template.md")))
  .catch(err => initializeConfigDir(configDir))
  .then(() => deferred.resolve(configDir))
  .catch(err => deferred.reject("Failed to initialize the configuration: " + err))
```

Note the propagation: when the first `catch`'s `mkdir` rejects, the rejection
skips the page-template `then` and is handled by the *second* `catch`, which
calls `initializeConfigDir`; only a rejection of `initializeConfigDir` itself
reaches the final `catch`. -/
def getConfigPath (env : Env) (s : Settings) (fs : FileSystem) : ConfigRun :=
  match resolveConfigDir env s with
  | .error e => ⟨.thrown e, fs, []⟩
  | .ok configDir =>
    let step1 : Except String FileSystem :=
      match checkIfAccessible fs configDir with
      | .ok _ => .ok fs
      | .error _ => mkdirCall fs configDir
    match step1 with
    | .ok fs1 =>
      match checkIfAccessible fs1 (pathJoin configDir "journal.page-template.md") with
      | .ok _ => ⟨.resolvedPath configDir, fs1, []⟩
      | .error _ =>
        let r := initializeConfigDir env configDir
        match r.1 with
        | .ok _ => ⟨.resolvedPath configDir, fs1, r.2⟩
        | .error e =>
          ⟨.rejected ("Failed to initialize the configuration: " ++ e), fs1, r.2⟩
    | .error _ =>
      let r := initializeConfigDir env configDir
      match r.1 with
      | .ok _ => ⟨.resolvedPath configDir, fs, r.2⟩
      | .error e =>
        ⟨.rejected ("Failed to initialize the configuration: " ++ e), fs, r.2⟩

/-- Discriminator: did the request end with a rejected promise? -/
def ConfigOutcome.isRejected : ConfigOutcome → Bool
  | .rejected _ => true
  | _ => false

/-- Settings fixture: every key unset (`config.get` returns `undefined`). -/
def sUnset : Settings :=
  ⟨none, none, none, none, none, none, none, none, none, none, none, none, none⟩

/-- Settings fixture: every string key stored as the empty string, booleans
unset. -/
def sEmpty : Settings :=
  ⟨some "", none, none, some "", some "", some "", some "", some "", some "",
   some "", some "", some "", some ""⟩

/-- Settings fixture: `extDir` stored as `/cfg`, the other string keys
empty. -/
def sCfg : Settings :=
  ⟨some "", none, none, some "", some "/cfg", some "", none, none, none,
   none, none, none, none⟩

/-- Settings fixture: `ext` stored as the given value, everything else
unset. -/
def sExtOf (v : String) : Settings :=
  ⟨none, none, none, none, none, some v, none, none, none, none, none, none,
   none⟩

/-- Settings fixture: `tpl-memo` stored, everything else unset. -/
def sMemo : Settings :=
  ⟨none, none, none, none, none, none, some "memo tpl", none, none, none,
   none, none, none⟩

/-- Environment fixture: home `/home/u`, working directory `/`, extension
installed at `/ext`. -/
def env0 : Env :=
  ⟨"/home/u", "/", "/ext"⟩

/-- Filesystem fixture: nothing exists, every `mkdir` fails. -/
def fsNone : FileSystem :=
  ⟨fun _ => false, fun _ => false⟩

/-- Filesystem fixture: only the directory `/cfg` exists (empty), every
`mkdir` fails; in particular the extension resource files under `/ext/res`
are absent. -/
def fsDirOnly : FileSystem :=
  ⟨fun p => p == "/cfg", fun _ => false⟩

/-- Filesystem fixture: the state after a genuinely completed initialization
of `/cfg`: the directory and all four seeded files are accessible, as are the
extension's resource files. -/
def fsReady : FileSystem :=
  ⟨fun p => p == "/cfg" || p == "/cfg/settings.json" ||
      p == "/cfg/journal.page-template.md" ||
      p == "/cfg/journal.note-template.md" ||
      p == "/cfg/journal.inline-templates.json" ||
      p == "/ext/res/settings.json" ||
      p == "/ext/res/journal.page-template.md" ||
      p == "/ext/res/journal.note-template.md" ||
      p == "/ext/res/journal.inline-templates.json",
   fun _ => false⟩

/-- The four copies `initializeConfigDir` requests for a target directory,
in source order. -/
def expectedCopies (env : Env) (configDir : String) : List CopyInit :=
  [⟨pathResolve env.extensionPath "res", configDir, "settings.json"⟩,
   ⟨pathResolve env.extensionPath "res", configDir, "journal.page-template.md"⟩,
   ⟨pathResolve env.extensionPath "res", configDir, "journal.note-template.md"⟩,
   ⟨pathResolve env.extensionPath "res", configDir, "journal.inline-templates.json"⟩]

/-- Helper: the aggregate promise of `initializeConfigDir` always resolves and
the four copies are always initiated. -/
theorem initializeConfigDir_eq (env : Env) (configDir : String) :
    initializeConfigDir env configDir = (.ok (), expectedCopies env configDir) :=
  rfl

/-- Helper: whenever the directory resolution itself does not throw,
`getConfigPath` resolves with the directory path — on every filesystem. -/
theorem getConfigPath_resolves (env : Env) (s : Settings) (fs : FileSystem)
    (cd : String) (h : resolveConfigDir env s = .ok cd) :
    (getConfigPath env s fs).outcome = .resolvedPath cd := by
  unfold getConfigPath
  rw [h]
  dsimp only
  cases h1 : checkIfAccessible fs cd with
  | ok u =>
    dsimp only
    cases h2 : checkIfAccessible fs (pathJoin cd "journal.page-template.md") with
    | ok v => rfl
    | error e => rfl
  | error e =>
    dsimp only
    cases h3 : mkdirCall fs cd with
    | ok fs1 =>
      dsimp only
      cases h4 : checkIfAccessible fs1 (pathJoin cd "journal.page-template.md") with
      | ok v => rfl
      | error e2 => rfl
    | error e3 => rfl

/-- C1: the spec says a failed directory creation ends the request in FAILED
with no seeding attempted.  The code disagrees: with `extDir = /cfg`, the
directory inaccessible and `mkdir` failing, the `mkdir` rejection is captured
by the *seeding* catch, all four default copies are initiated into the
never-created directory, and the request resolves successfully with the
path. -/
theorem c1_mkdir_failure_is_swallowed :
    (getConfigPath env0 sCfg fsNone).outcome = ConfigOutcome.resolvedPath "/cfg" ∧
    (getConfigPath env0 sCfg fsNone).copies = expectedCopies env0 "/cfg" ∧
    (getConfigPath env0 sCfg fsNone).fs.accessible "/cfg" = false := by
  refine ⟨?_, ?_, ?_⟩ <;> decide

/-- C2: the spec says a missing source file makes the seeding fail with an
aggregate error naming the file.  The code disagrees: even in a filesystem
where the resource source lacks `journal.note-template.md` (here it lacks
everything), the aggregate promise still resolves — the stream errors are
unobserved — and the four copies are merely initiated. -/
theorem c2_seed_copy_failure_is_unobserved :
    fsNone.accessible "/ext/res/journal.note-template.md" = false ∧
    (initializeConfigDir env0 "/cfg").1 = Except.ok () ∧
    (initializeConfigDir env0 "/cfg").2 = expectedCopies env0 "/cfg" := by
  refine ⟨?_, ?_, ?_⟩ <;> decide

/-- C3: the spec guarantees that a successful resolution implies the
directory exists and contains the page template.  The code disagrees: with
`/cfg` existing but empty and the resource source absent, `getConfigPath`
resolves successfully while `journal.page-template.md` is inaccessible at
resolution time — the seeding copies are only initiated, and their source
`/ext/res/journal.page-template.md` does not exist, so they can never
complete. -/
theorem c3_success_without_template :
    (getConfigPath env0 sCfg fsDirOnly).outcome = ConfigOutcome.resolvedPath "/cfg" ∧
    (getConfigPath env0 sCfg fsDirOnly).fs.accessible "/cfg/journal.page-template.md" = false ∧
    fsDirOnly.accessible "/ext/res/journal.page-template.md" = false := by
  refine ⟨?_, ?_, ?_⟩ <;> decide

/-- C4: in any state left by a genuinely successful initialization — the
resolved directory and its `journal.page-template.md` accessible — invoking
`getConfigPath` again is idempotent: it resolves with the same path, leaves
the filesystem unchanged, and initiates no copies. -/
theorem c4_idempotent_after_success (env : Env) (s : Settings)
    (fs : FileSystem) (cd : String)
    (h : resolveConfigDir env s = Except.ok cd)
    (hdir : fs.accessible cd = true)
    (hpage : fs.accessible (pathJoin cd "journal.page-template.md") = true) :
    getConfigPath env s fs = ⟨ConfigOutcome.resolvedPath cd, fs, []⟩ := by
  unfold getConfigPath
  rw [h]
  dsimp only
  simp [checkIfAccessible, hdir, hpage]

/-- C4 witness: the idempotence theorem instantiated at `/cfg` with the
fully-seeded filesystem `fsReady`. -/
theorem c4_idempotent_after_success_witness :
    resolveConfigDir env0 sCfg = Except.ok "/cfg" ∧
    fsReady.accessible "/cfg" = true ∧
    fsReady.accessible (pathJoin "/cfg" "journal.page-template.md") = true ∧
    getConfigPath env0 sCfg fsReady = ⟨ConfigOutcome.resolvedPath "/cfg", fsReady, []⟩ :=
  ⟨by decide, by decide, by decide,
   c4_idempotent_after_success env0 sCfg fsReady "/cfg" (by decide) (by decide)
     (by decide)⟩

/-- C5: with the resolved directory accessible but its
`journal.page-template.md` missing, the run initiates a copy of all four
default files from the resource source into the directory — not only the
missing one — and resolves with the path. -/
theorem c5_reseeds_all_four (env : Env) (s : Settings) (fs : FileSystem)
    (cd : String)
    (h : resolveConfigDir env s = Except.ok cd)
    (hdir : fs.accessible cd = true)
    (hpage : fs.accessible (pathJoin cd "journal.page-template.md") = false) :
    (getConfigPath env s fs).outcome = ConfigOutcome.resolvedPath cd ∧
    (getConfigPath env s fs).copies = expectedCopies env cd := by
  unfold getConfigPath
  rw [h]
  dsimp only
  constructor <;> simp [checkIfAccessible, hdir, hpage, initializeConfigDir_eq]

/-- C5 witness: the re-seeding theorem instantiated at `/cfg` with the
directory present but empty. -/
theorem c5_reseeds_all_four_witness :
    resolveConfigDir env0 sCfg = Except.ok "/cfg" ∧
    fsDirOnly.accessible "/cfg" = true ∧
    fsDirOnly.accessible (pathJoin "/cfg" "journal.page-template.md") = false ∧
    ((getConfigPath env0 sCfg fsDirOnly).outcome = ConfigOutcome.resolvedPath "/cfg" ∧
     (getConfigPath env0 sCfg fsDirOnly).copies = expectedCopies env0 "/cfg") :=
  ⟨by decide, by decide, by decide,
   c5_reseeds_all_four env0 sCfg fsDirOnly "/cfg" (by decide) (by decide)
     (by decide)⟩

/-- C6: with `extDir` empty or unset and `getBasePath` resolving to
`/home/u/Journal`, the configuration directory resolves to
`/home/u/Journal/.vscode`, and every run resolves with that path. -/
theorem c6_default_config_dir (env : Env) (s : Settings)
    (hext : s.extDir = none ∨ s.extDir = some "")
    (hbase : getBasePath env s = Except.ok "/home/u/Journal") :
    resolveConfigDir env s = Except.ok "/home/u/Journal/.vscode" ∧
    ∀ fs : FileSystem, (getConfigPath env s fs).outcome =
      ConfigOutcome.resolvedPath "/home/u/Journal/.vscode" := by
  have hr : resolveConfigDir env s = Except.ok "/home/u/Journal/.vscode" := by
    have hp : pathResolve "/home/u/Journal" ".vscode" = "/home/u/Journal/.vscode" := by
      decide
    rcases hext with hx | hx <;>
      simp [resolveConfigDir, hx, hbase, hp, Except.map]
  exact ⟨hr, fun fs => getConfigPath_resolves env s fs _ hr⟩

/-- C6 witness: with every string setting empty and `homedir = /home/u`, the
resolution indeed yields `/home/u/Journal/.vscode`. -/
theorem c6_default_config_dir_witness :
    (sEmpty.extDir = none ∨ sEmpty.extDir = some "") ∧
    getBasePath env0 sEmpty = Except.ok "/home/u/Journal" ∧
    (getConfigPath env0 sEmpty fsNone).outcome =
      ConfigOutcome.resolvedPath "/home/u/Journal/.vscode" :=
  ⟨by decide, by decide,
   (c6_default_config_dir env0 sEmpty (by decide) (by decide)).2 fsNone⟩

/-- C7: `getFileExtension` strips exactly one leading dot from the stored
`ext` value and falls back to `md` exactly when the remaining value is
empty. -/
theorem c7_file_extension_strip (s : Settings) :
    (∀ w : String, s.ext = some ("." ++ w) →
      getFileExtension s = Except.ok (if w.length > 0 then w else "md")) ∧
    (∀ v : String, s.ext = some v → jsStartsWith v "." = false →
      getFileExtension s = Except.ok (if v.length > 0 then v else "md")) := by
  constructor
  · intro w hw
    unfold getFileExtension
    rw [hw]
    have hsw : jsStartsWith ("." ++ w) "." = true := by
      simp [jsStartsWith, List.isPrefixOf]
    have ht : jsTail ("." ++ w) = w := by
      simp [jsTail]
    simp [hsw, ht]
  · intro v hv hnd
    unfold getFileExtension
    rw [hv]
    simp [hnd]

/-- C7 witness: `.markdown → markdown`, `md → md`, `"" → md`, and `..x → .x`
(only the first dot is stripped). -/
theorem c7_file_extension_strip_witness :
    getFileExtension (sExtOf ".markdown") = Except.ok "markdown" ∧
    getFileExtension (sExtOf "md") = Except.ok "md" ∧
    getFileExtension (sExtOf "") = Except.ok "md" ∧
    getFileExtension (sExtOf "..x") = Except.ok ".x" :=
  ⟨by rw [(c7_file_extension_strip (sExtOf ".markdown")).1 "markdown" (by decide)]; decide,
   by rw [(c7_file_extension_strip (sExtOf "md")).2 "md" (by decide) (by decide)]; decide,
   by rw [(c7_file_extension_strip (sExtOf "")).2 "" (by decide) (by decide)]; decide,
   by rw [(c7_file_extension_strip (sExtOf "..x")).1 ".x" (by decide)]; decide⟩

/-- C8 counterexample: with every key unset (the provider returns
`undefined`), `getLocale` throws a `TypeError` instead of returning the
documented default `en-US` — the claim's unset case fails. -/
theorem c8_unset_locale_throws :
    getLocale sUnset = Except.error (undefinedReadError "length") ∧
    ¬ getLocale sUnset = Except.ok "en-US" := by
  refine ⟨?_, ?_⟩ <;> decide

/-- C8 amended: empty-string stored values yield the documented defaults
(`en-US`, `md`, `<home>/Journal`) and an unset or false `dev` yields `false`;
but when `locale`, `ext` or `base` are unset (`config.get` returns
`undefined`) the corresponding accessor throws a `TypeError` instead of
returning its default. -/
theorem c8_defaults_empty_vs_unset (env : Env) (s : Settings) :
    (s.locale = some "" → getLocale s = Except.ok "en-US") ∧
    (s.ext = some "" → getFileExtension s = Except.ok "md") ∧
    (s.base = some "" → getBasePath env s = Except.ok (env.homedir ++ "/" ++ "Journal")) ∧
    (s.dev = none → isDevEnabled s = false) ∧
    (s.dev = some false → isDevEnabled s = false) ∧
    (s.locale = none → getLocale s = Except.error (undefinedReadError "length")) ∧
    (s.ext = none → getFileExtension s = Except.error (undefinedReadError "startsWith")) ∧
    (s.base = none → getBasePath env s = Except.error (undefinedReadError "length")) := by
  have hj : jsStartsWith "Journal" "/" = false := by decide
  have hd : jsStartsWith "" "." = false := by decide
  refine ⟨?_, ?_, ?_, ?_, ?_, ?_, ?_, ?_⟩ <;> intro h <;>
    simp [getLocale, getFileExtension, getBasePath, isDevEnabled, h,
      pathResolve, hj, hd]

/-- C8 witness: the amended statement instantiated at the all-empty and the
all-unset settings states. -/
theorem c8_defaults_empty_vs_unset_witness :
    getLocale sEmpty = Except.ok "en-US" ∧
    getFileExtension sEmpty = Except.ok "md" ∧
    getBasePath env0 sEmpty = Except.ok "/home/u/Journal" ∧
    isDevEnabled sUnset = false ∧
    getLocale sUnset = Except.error (undefinedReadError "length") :=
  ⟨(c8_defaults_empty_vs_unset env0 sEmpty).1 (by decide),
   (c8_defaults_empty_vs_unset env0 sEmpty).2.1 (by decide),
   by rw [(c8_defaults_empty_vs_unset env0 sEmpty).2.2.1 (by decide)]; decide,
   (c8_defaults_empty_vs_unset env0 sUnset).2.2.2.1 (by decide),
   (c8_defaults_empty_vs_unset env0 sUnset).2.2.2.2.2.1 (by decide)⟩

/-- C9 counterexample: at a concrete settings state `getMemoTemplate` returns
the bare `tpl-memo` string — it is not a `TemplateInfo` value, contradicting
the claim that each of the four accessors returns one. -/
theorem c9_memo_not_template_info :
    getMemoTemplate sMemo = AccessorResult.str (some "memo tpl") ∧
    (getMemoTemplate sMemo).isTemplateInfo = false := by
  refine ⟨?_, ?_⟩ <;> decide

/-- C9 amended: `getNotesTemplate`, `getTaskTemplate` and `getTodoTemplate`
return `TemplateInfo` values built purely from the `tpl-*` settings reads,
with no filesystem access; `getMemoTemplate` is likewise a pure settings read
but returns the raw `tpl-memo` string rather than a `TemplateInfo`. -/
theorem c9_template_accessors (s : Settings) :
    getNotesTemplate s = AccessorResult.tpl ⟨s.tplFiles, s.tplFilesAfter⟩ ∧
    getTaskTemplate s = AccessorResult.tpl ⟨s.tplTask, s.tplTaskAfter⟩ ∧
    getTodoTemplate s = AccessorResult.tpl ⟨s.tplTodo, s.tplTodoAfter⟩ ∧
    (getNotesTemplate s).isTemplateInfo = true ∧
    (getTaskTemplate s).isTemplateInfo = true ∧
    (getTodoTemplate s).isTemplateInfo = true ∧
    getMemoTemplate s = AccessorResult.str s.tplMemo ∧
    (getMemoTemplate s).isTemplateInfo = false :=
  ⟨rfl, rfl, rfl, rfl, rfl, rfl, rfl, rfl⟩

/-- C10: `copyTask` resolves unconditionally immediately after initiating the
stream pipe, without awaiting the copy or observing stream errors; hence
`initializeConfigDir`'s aggregate promise always resolves (its copy-error
catch is dead code) and no `getConfigPath` request is ever rejected, whatever
the filesystem state. -/
theorem c10_copy_promise_unconditional :
    (∀ source target file : String, (copyTask source target file).1 = Except.ok ()) ∧
    (∀ (env : Env) (configDir : String),
      (initializeConfigDir env configDir).1 = Except.ok ()) ∧
    (∀ (env : Env) (s : Settings) (fs : FileSystem),
      (getConfigPath env s fs).outcome.isRejected = false) := by
  refine ⟨fun _ _ _ => rfl, fun _ _ => rfl, fun env s fs => ?_⟩
  cases hr : resolveConfigDir env s with
  | error e =>
    unfold getConfigPath
    rw [hr]
    rfl
  | ok cd =>
    rw [getConfigPath_resolves env s fs cd hr]
    rfl
